import Mathlib

set_option maxRecDepth 10000

/-!
Verification development for the natural-language-postgres server actions.

The source programs are `src/app/actions.ts` and the second variant of the
same module (`src/unnamed/part_000`).  Text is modelled as `List Char`;
JavaScript string operations (`trim`, `toLowerCase`, `split`, `includes`,
`startsWith`, `replace(/;+$/,'')`, `join`) become the corresponding list
functions.  The Postgres client is modelled by a `Store` record giving the
answers of the fixed round-trip queries the code issues, plus the result of
executing an arbitrary SQL text; every `client.query(text)` call is recorded
in a trace so that statements about which SQL reaches the store are provable.
-/

abbrev Str := List Char

/-- One result row: an ordered mapping column name to rendered value,
as `pg` hands rows to the JavaScript layer. -/
abbrev Row := List (Str × Str)

/-- Whitespace removed by JavaScript `trim()` (the characters the queries at
hand can contain). -/
def wsChar (c : Char) : Bool := (c == ' ') || (c == '\t') || (c == '\n') || (c == '\r')

/-- The character removed by `replace(/;+$/, '')`. -/
def semiChar (c : Char) : Bool := (c == ';')

/-- Characters that trimming or semicolon-stripping can remove. -/
def badBoundary (c : Char) : Bool := wsChar c || semiChar c

/-- Remove the maximal trailing run of characters satisfying `p`. -/
def dropTrail (p : Char → Bool) (l : Str) : Str := (l.reverse.dropWhile p).reverse

/-- Model of `String.prototype.trim`. -/
def jsTrim (l : Str) : Str := dropTrail wsChar (l.dropWhile wsChar)

/-- Model of `.replace(/;+$/, '')`: drop the trailing semicolon run. -/
def stripTrailingSemis (l : Str) : Str := dropTrail semiChar l

/-- Model of `.toLowerCase()`. -/
def lowerStr (l : Str) : Str := l.map Char.toLower

/-- `const cleanedQuery = query.trim().replace(/;+$/, '')` (part_000 line 107). -/
def cleanedQueryOf (q : Str) : Str := stripTrailingSemis (jsTrim q)

/-- `const queryLower = cleanedQuery.toLowerCase()` (part_000 line 108). -/
def queryLowerOf (q : Str) : Str := lowerStr (cleanedQueryOf q)

def selectLit : Str := "select".toList

/-- The denylist of part_000 lines 115-117. -/
def forbiddenOps : List Str :=
  ["drop".toList, "delete".toList, "insert".toList, "update".toList, "alter".toList,
   "truncate".toList, "create".toList, "grant".toList, "revoke".toList, "execute".toList,
   "merge".toList, "lock".toList, "comment".toList, "explain".toList]

def onlySelectMsg : Str := "Only SELECT queries are allowed".toList

def forbiddenMsgPre : Str := "Query contains forbidden operation: ".toList

/-- The validation step of `runGenerateSQLQuery` (part_000 lines 106-121):
`none` when the query is accepted, `some message` for the thrown guard error. -/
def guardCheck (query : Str) : Option Str :=
  if ¬ selectLit <+: queryLowerOf query then some onlySelectMsg
  else if forbiddenOps.any (fun op => decide (op <:+: queryLowerOf query)) then
    some (forbiddenMsgPre ++ cleanedQueryOf query)
  else none

def regexpSplitLit : Str := "regexp_split_part".toList

def csvLit : Str := "csv".toList

def exportLit : Str := "export".toList

def newlineLit : Str := "\n".toList

def commaLit : Str := ",".toList

/-- The pre-check query of part_000 line 126. -/
def testQuerySQL : Str :=
  "SELECT select_investors FROM unicorns WHERE select_investors LIKE '%,%' LIMIT 1".toList

/-- The table-existence query of part_000 line 177. -/
def tableCheckSQL : Str :=
  "SELECT EXISTS (SELECT FROM pg_tables WHERE tablename = 'unicorns')".toList

/-- The row-count query of part_000 lines 186 and 193. -/
def countSQL : Str := "SELECT COUNT(*) FROM unicorns".toList

def noCommaMsg : Str := "No comma-separated values found in select_investors column".toList

def tableMissingThrownMsg : Str := "Table \"unicorns\" does not exist".toList

def relationMissingLit : Str := "relation \"unicorns\" does not exist".toList

def tableEmptyMsg : Str := "Table exists but contains no data".toList

def tableEmptySeedMsg : Str :=
  "The unicorns table exists but contains no data. Please ensure your Supabase database is properly seeded.".toList

def noMatchingMsg : Str :=
  "Your query executed successfully but found no matching records. Try broadening your search criteria.".toList

def deadNoResultsMsg : Str := "Query executed successfully but returned no results".toList

def noDataFoundMsg : Str := "No data found matching your query criteria".toList

def tableMissingMsg : Str := "Table does not exist".toList

def dbErrorPre : Str := "Database error: ".toList

/-- What `runGenerateSQLQuery` returns on success: rows, or (when the query
text mentions csv/export) the `{ csv: ... }` object. -/
inductive QueryOutput where
  | rows (rs : List Row)
  | csv (text : Str)
deriving DecidableEq

/-- The external Postgres store, as the code consumes it: the answer of the
table-existence round-trip, the `COUNT(*)` answer, the number of rows the
comma pre-check query returns, and the result of executing an arbitrary SQL
text (`Except.error` for a store-level failure carrying its message).
Connections are assumed to succeed; connection failures are outside the
modelled claims. -/
structure Store where
  tableExists : Bool
  rowCount : Nat
  commaRows : Nat
  execQuery : Str → Except Str (List Row)

instance {ε α : Type} [DecidableEq ε] [DecidableEq α] : DecidableEq (Except ε α) := fun a b =>
  match a, b with
  | Except.error e, Except.error f => decidable_of_iff (e = f) (by simp)
  | Except.error _, Except.ok _ => Decidable.isFalse (by simp)
  | Except.ok _, Except.error _ => Decidable.isFalse (by simp)
  | Except.ok u, Except.ok v => decidable_of_iff (u = v) (by simp)

/-- The body of the `try` block of part_000 lines 163-213, paired with the
list of SQL texts sent to the store, in order.  The duplicated row-count
check (lines 192-198) is kept as in the source; its branch is unreachable. -/
def tryMainBlock (st : Store) (query : Str) : Except Str QueryOutput × List Str :=
  if st.tableExists = false then (Except.error tableMissingThrownMsg, [tableCheckSQL])
  else if st.rowCount == 0 then (Except.error tableEmptyMsg, [tableCheckSQL, countSQL])
  else if st.rowCount == 0 then
    (Except.error tableEmptySeedMsg, [tableCheckSQL, countSQL, countSQL])
  else
    match st.execQuery query with
    | Except.error m => (Except.error m, [tableCheckSQL, countSQL, countSQL, query])
    | Except.ok rows =>
      if rows.length == 0 then
        (Except.error noMatchingMsg, [tableCheckSQL, countSQL, countSQL, query])
      else if (csvLit <:+: queryLowerOf query) ∨ (exportLit <:+: queryLowerOf query) then
        (Except.ok (QueryOutput.csv (List.intercalate newlineLit
            (rows.map fun row => List.intercalate commaLit (row.map Prod.snd)))),
         [tableCheckSQL, countSQL, countSQL, query])
      else (Except.ok (QueryOutput.rows rows), [tableCheckSQL, countSQL, countSQL, query])

/-- The `catch` block of part_000 lines 214-226: how a message thrown inside
the `try` block is rewritten before reaching the caller. -/
def catchMap (m : Str) : Str :=
  if (relationMissingLit <:+: m) ∨ m = tableMissingThrownMsg then tableMissingMsg
  else if m = deadNoResultsMsg then noDataFoundMsg
  else dbErrorPre ++ m

/-- Attach the catch-block rewriting and a trace prefix to a try-block run. -/
def withCatch (rt : Except Str QueryOutput × List Str) (pre : List Str) :
    Except Str QueryOutput × List Str :=
  (rt.1.mapError catchMap, pre ++ rt.2)

/-- `runGenerateSQLQuery` of part_000 lines 103-230: the guard, the
`regexp_split_part` pre-check (whose failure is thrown outside the main
try/catch and so reaches the caller unwrapped), then the main try/catch.
Returns the outcome and the trace of SQL texts sent to the store. -/
def runGenerateSQLQueryModel (st : Store) (query : Str) :
    Except Str QueryOutput × List Str :=
  match guardCheck query with
  | some e => (Except.error e, [])
  | none =>
    if regexpSplitLit <:+: queryLowerOf query then
      if st.commaRows == 0 then (Except.error noCommaMsg, [testQuerySQL])
      else withCatch (tryMainBlock st query) [testQuerySQL]
    else withCatch (tryMainBlock st query) []

/-- Model of JavaScript `split(' ')`: split at every single space, keeping
empty segments; `"".split(' ')` is `[""]`. -/
def splitSpace : Str → List Str
  | [] => [[]]
  | c :: rest =>
    if c == ' ' then [] :: splitSpace rest
    else
      match splitSpace rest with
      | [] => [[c]]
      | w :: ws => (c :: w) :: ws

def groupByIndustrySQL : Str :=
  "SELECT industry, COUNT(*) as count FROM unicorns GROUP BY industry ORDER BY count DESC".toList

def groupByCountrySQL : Str :=
  "SELECT country, COUNT(*) as count FROM unicorns GROUP BY country ORDER BY count DESC".toList

def totalCountSQL : Str := "SELECT 'total' as metric, COUNT(*) as count FROM unicorns".toList

def topValuationSQL : Str :=
  "SELECT company, valuation FROM unicorns ORDER BY valuation DESC LIMIT 10".toList

def avgValuationSQL : Str :=
  "SELECT 'average' as metric, AVG(valuation) as value FROM unicorns".toList

def rankValuationSQL : Str :=
  "SELECT company, valuation FROM unicorns ORDER BY valuation DESC".toList

def defaultFallbackSQL : Str := "SELECT company, valuation FROM unicorns LIMIT 50".toList

def countLit : Str := "count".toList

def howManyLit : Str := "how many".toList

def industryLit : Str := "industry".toList

def countryLit : Str := "country".toList

def valuationLit : Str := "valuation".toList

def worthLit : Str := "worth".toList

def highestLit : Str := "highest".toList

def topLit : Str := "top".toList

def averageLit : Str := "average".toList

def avgLit : Str := "avg".toList

/-- The quota-fallback branch of `generateQuery` (actions.ts lines 56-81):
`const keywords = input.toLowerCase().split(' ')` and the ordered keyword
rules, ending in the default query. -/
def generateQueryFallback (input : Str) : Str :=
  let keywords := splitSpace (lowerStr input)
  if keywords.contains countLit || keywords.contains howManyLit then
    if keywords.contains industryLit then groupByIndustrySQL
    else if keywords.contains countryLit then groupByCountrySQL
    else totalCountSQL
  else if keywords.contains valuationLit || keywords.contains worthLit then
    if keywords.contains highestLit || keywords.contains topLit then topValuationSQL
    else if keywords.contains averageLit || keywords.contains avgLit then avgValuationSQL
    else rankValuationSQL
  else defaultFallbackSQL

/-- The question of the spec's scenario for the quota fallback. -/
def c2Question : Str := "how many unicorns are in the software industry".toList

/-- The chart configuration as the fallback builds it.  `xKey` is an
`Option` because `Object.keys(results[0])[0]` is `undefined` when the first
row has no columns. -/
structure ChartConfig where
  chartType : Str
  xKey : Option Str
  yKeys : List Str
  colors : List (Str × Str)
  legend : Bool
deriving DecidableEq

def barLit : Str := "bar".toList

def companyLit : Str := "company".toList

/-- The color token `hsl(var(--chart-i))` assigned to palette slot `i`. -/
def colorToken (i : Nat) : Str :=
  "hsl(var(--chart-".toList ++ Nat.toDigits 10 i ++ "))".toList

/-- The quota-fallback branch of `generateChartConfig` (actions.ts lines
242-271): a fixed default for empty rows, otherwise the first row's first
key as `xKey`, its remaining keys as `yKeys`, and `colors` assigned by
`forEach` in `yKeys` order with `hsl(var(--chart-(index+1)))`. -/
def chartFallbackConfig (results : List Row) : ChartConfig :=
  match results with
  | [] =>
    { chartType := barLit, xKey := some companyLit, yKeys := [valuationLit],
      colors := [(valuationLit, "hsl(var(--chart-1))".toList)], legend := true }
  | r :: _ =>
    { chartType := barLit, xKey := (r.map Prod.fst).head?,
      yKeys := (r.map Prod.fst).tail,
      colors := ((r.map Prod.fst).tail).enum.map (fun p => (p.2, colorToken (p.1 + 1))),
      legend := true }

/-! ## Helper lemmas: trimming, lowercasing, substring containment -/

theorem dropTrail_decomp (p : Char → Bool) (l : Str) :
    ∃ t, l = dropTrail p l ++ t ∧ ∀ c ∈ t, p c = true := by
  refine ⟨(l.reverse.takeWhile p).reverse, ?_, ?_⟩
  · calc l = l.reverse.reverse := (List.reverse_reverse l).symm
      _ = (List.takeWhile p l.reverse ++ List.dropWhile p l.reverse).reverse := by
          rw [List.takeWhile_append_dropWhile]
      _ = (List.dropWhile p l.reverse).reverse ++ (List.takeWhile p l.reverse).reverse :=
          List.reverse_append _ _
      _ = dropTrail p l ++ (List.takeWhile p l.reverse).reverse := rfl
  · intro c hc
    exact List.mem_takeWhile_imp (List.mem_reverse.mp hc)

theorem dropWhile_decomp (p : Char → Bool) (l : Str) :
    ∃ a, l = a ++ l.dropWhile p ∧ ∀ c ∈ a, p c = true :=
  ⟨l.takeWhile p, (List.takeWhile_append_dropWhile p l).symm,
    fun _ hc => List.mem_takeWhile_imp hc⟩

theorem dropTrail_prefix_self (p : Char → Bool) (l : Str) : dropTrail p l <+: l := by
  obtain ⟨t, ht, -⟩ := dropTrail_decomp p l
  exact ⟨t, ht.symm⟩

theorem wsChar_toLower {c : Char} (h : wsChar c = true) : wsChar (Char.toLower c) = true := by
  simp only [wsChar, Bool.or_eq_true, beq_iff_eq] at h
  rcases h with ((h | h) | h) | h <;> subst h <;> decide

theorem semiChar_toLower {c : Char} (h : semiChar c = true) :
    semiChar (Char.toLower c) = true := by
  simp only [semiChar, beq_iff_eq] at h
  subst h; decide

theorem badBoundary_toLower {c : Char} (h : badBoundary c = true) :
    badBoundary (Char.toLower c) = true := by
  simp only [badBoundary, Bool.or_eq_true] at h ⊢
  rcases h with h | h
  · exact Or.inl (wsChar_toLower h)
  · exact Or.inr (semiChar_toLower h)

theorem infix_drop_left {tok a b : Str} (bad : Char → Bool) (hne : tok ≠ [])
    (htok : ∀ c ∈ tok, bad c = false) (ha : ∀ c ∈ a, bad c = true)
    (h : tok <:+: a ++ b) : tok <:+: b := by
  induction a with
  | nil => simpa using h
  | cons x xs ih =>
    rw [List.cons_append] at h
    rcases List.infix_cons_iff.mp h with hpre | hinf
    · cases tok with
      | nil => exact absurd rfl hne
      | cons t ts =>
        obtain ⟨hte, -⟩ := List.cons_prefix_cons.mp hpre
        have h1 := htok t (List.mem_cons_self t ts)
        have h2 := ha x (List.mem_cons_self x xs)
        rw [hte, h2] at h1
        exact Bool.noConfusion h1
    · exact ih (fun c hc => ha c (List.mem_cons_of_mem x hc)) hinf

theorem infix_drop_right {tok b c : Str} (bad : Char → Bool) (hne : tok ≠ [])
    (htok : ∀ ch ∈ tok, bad ch = false) (hc : ∀ ch ∈ c, bad ch = true)
    (h : tok <:+: b ++ c) : tok <:+: b := by
  have hner : tok.reverse ≠ [] := fun hrev => hne (List.reverse_eq_nil_iff.mp hrev)
  have h' : tok.reverse <:+: c.reverse ++ b.reverse := by
    have hrev := List.reverse_infix.mpr h
    rwa [List.reverse_append] at hrev
  have hres := infix_drop_left bad hner
      (fun ch hch => htok ch (List.mem_reverse.mp hch))
      (fun ch hch => hc ch (List.mem_reverse.mp hch)) h'
  exact List.reverse_infix.mp hres

theorem prefix_drop_right {p a c : Str} (bad : Char → Bool)
    (hp : ∀ ch ∈ p, bad ch = false) (hc : ∀ ch ∈ c, bad ch = true)
    (h : p <+: a ++ c) : p <+: a := by
  induction a generalizing p with
  | nil =>
    cases p with
    | nil => exact List.nil_prefix
    | cons t ts =>
      obtain ⟨r, hr⟩ := h
      have htc : t ∈ c := by
        have hce : c = t :: (ts ++ r) := by simpa using hr.symm
        rw [hce]; exact List.mem_cons_self _ _
      have h1 := hp t (List.mem_cons_self t ts)
      have h2 := hc t htc
      rw [h2] at h1
      exact Bool.noConfusion h1
  | cons x xs ih =>
    cases p with
    | nil => exact List.nil_prefix
    | cons t ts =>
      rw [List.cons_append] at h
      obtain ⟨hte, hts⟩ := List.cons_prefix_cons.mp h
      subst hte
      exact List.cons_prefix_cons.mpr
        ⟨rfl, ih (fun ch hch => hp ch (List.mem_cons_of_mem _ hch)) hts⟩

theorem lower_ws_bad {l : Str} (h : ∀ c ∈ l, wsChar c = true) :
    ∀ c ∈ List.map Char.toLower l, badBoundary c = true := by
  intro c hc
  obtain ⟨d, hd, rfl⟩ := List.mem_map.mp hc
  have hw := wsChar_toLower (h d hd)
  simp only [badBoundary, Bool.or_eq_true]
  exact Or.inl hw

theorem lower_semi_bad {l : Str} (h : ∀ c ∈ l, semiChar c = true) :
    ∀ c ∈ List.map Char.toLower l, badBoundary c = true := by
  intro c hc
  obtain ⟨d, hd, rfl⟩ := List.mem_map.mp hc
  have hw := semiChar_toLower (h d hd)
  simp only [badBoundary, Bool.or_eq_true]
  exact Or.inr hw

theorem lower_semi {l : Str} (h : ∀ c ∈ l, semiChar c = true) :
    ∀ c ∈ List.map Char.toLower l, semiChar c = true := by
  intro c hc
  obtain ⟨d, hd, rfl⟩ := List.mem_map.mp hc
  exact semiChar_toLower (h d hd)

theorem query_decomp (q : Str) :
    ∃ a s b, q = a ++ ((cleanedQueryOf q ++ s) ++ b) ∧
      (∀ c ∈ a, wsChar c = true) ∧ (∀ c ∈ s, semiChar c = true) ∧
      (∀ c ∈ b, wsChar c = true) := by
  obtain ⟨a, ha, hav⟩ := dropWhile_decomp wsChar q
  obtain ⟨b, hb, hbv⟩ := dropTrail_decomp wsChar (q.dropWhile wsChar)
  obtain ⟨s, hs, hsv⟩ := dropTrail_decomp semiChar (jsTrim q)
  refine ⟨a, s, b, ?_, hav, hsv, hbv⟩
  have hb' : q.dropWhile wsChar = jsTrim q ++ b := hb
  have hs' : jsTrim q = cleanedQueryOf q ++ s := hs
  calc q = a ++ q.dropWhile wsChar := ha
    _ = a ++ (jsTrim q ++ b) := by rw [← hb']
    _ = a ++ ((cleanedQueryOf q ++ s) ++ b) := by rw [← hs']

theorem infix_lower_to_queryLower {tok q : Str} (hne : tok ≠ [])
    (hgood : ∀ c ∈ tok, badBoundary c = false)
    (h : tok <:+: lowerStr q) : tok <:+: queryLowerOf q := by
  obtain ⟨a, s, b, hq, hav, hsv, hbv⟩ := query_decomp q
  rw [hq] at h
  simp only [lowerStr, List.map_append] at h
  have h1 := infix_drop_left badBoundary hne hgood (lower_ws_bad hav) h
  have h2 := infix_drop_right badBoundary hne hgood (lower_ws_bad hbv) h1
  have h3 := infix_drop_right badBoundary hne hgood (lower_semi_bad hsv) h2
  exact h3

theorem infix_queryLower_to_lower {tok q : Str} (h : tok <:+: queryLowerOf q) :
    tok <:+: lowerStr q := by
  have h1 : cleanedQueryOf q <:+: q := by
    have hpre : cleanedQueryOf q <+: jsTrim q := dropTrail_prefix_self semiChar (jsTrim q)
    have hpre2 : jsTrim q <+: q.dropWhile wsChar := dropTrail_prefix_self wsChar _
    have hsuf : q.dropWhile wsChar <:+ q := List.dropWhile_suffix wsChar
    exact ((hpre.trans hpre2).isInfix).trans hsuf.isInfix
  exact h.trans (List.IsInfix.map Char.toLower h1)

theorem selectPre_queryLower_of_trim {q : Str} (h : selectLit <+: lowerStr (jsTrim q)) :
    selectLit <+: queryLowerOf q := by
  obtain ⟨s, hs, hsv⟩ := dropTrail_decomp semiChar (jsTrim q)
  rw [hs] at h
  simp only [lowerStr, List.map_append] at h
  exact prefix_drop_right semiChar (by decide) (lower_semi hsv) h

theorem selectPre_trim_of_queryLower {q : Str} (h : selectLit <+: queryLowerOf q) :
    selectLit <+: lowerStr (jsTrim q) :=
  h.trans (List.IsPrefix.map Char.toLower (dropTrail_prefix_self semiChar (jsTrim q)))

/-! ## Facts about the fixed token lists -/

theorem forbiddenOps_good :
    ∀ tok ∈ forbiddenOps, tok ≠ [] ∧ ∀ c ∈ tok, badBoundary c = false := by decide

/-! ## Words produced by split(' ') never contain a space -/

theorem splitSpace_no_space : ∀ (s : Str), ∀ w ∈ splitSpace s, ' ' ∉ w := by
  intro s
  induction s with
  | nil =>
    intro w hw
    simp only [splitSpace, List.mem_singleton] at hw
    subst hw
    simp
  | cons c rest ih =>
    intro w hw
    simp only [splitSpace] at hw
    cases hc : (c == ' ') with
    | true =>
      simp only [hc, if_true] at hw
      rcases List.mem_cons.mp hw with rfl | hmem
      · simp
      · exact ih w hmem
    | false =>
      have hcne : ¬ (' ' = c) := by
        intro he
        rw [← he] at hc
        simp at hc
      simp only [hc, Bool.false_eq_true, if_false] at hw
      cases hsp : splitSpace rest with
      | nil =>
        rw [hsp] at hw
        simp only [List.mem_singleton] at hw
        subst hw
        simp only [List.mem_singleton]
        exact hcne
      | cons w0 ws =>
        rw [hsp] at hw
        rcases List.mem_cons.mp hw with rfl | hmem
        · intro hin
          rcases List.mem_cons.mp hin with hce | hmem2
          · exact hcne hce
          · exact ih w0 (by rw [hsp]; exact List.mem_cons_self _ _) hmem2
        · exact ih w (by rw [hsp]; exact List.mem_cons_of_mem _ hmem)

/-! ## Claim theorems -/

/-- C1: for every input string, the validation step of `runGenerateSQLQuery`
throws a guard error if the string, after trimming and lowercasing, does not
start with "select"; it throws a guard error if the lowercased text contains
any token of the fixed denylist as a substring; otherwise it accepts the
query and raises no guard error. -/
theorem C1_query_guard (q : Str) :
    (¬ selectLit <+: lowerStr (jsTrim q) → ∃ e, guardCheck q = some e) ∧
    (∀ tok ∈ forbiddenOps, tok <:+: lowerStr q → ∃ e, guardCheck q = some e) ∧
    (selectLit <+: lowerStr (jsTrim q) →
      (∀ tok ∈ forbiddenOps, ¬ tok <:+: lowerStr q) → guardCheck q = none) := by
  refine ⟨?_, ?_, ?_⟩
  · intro h
    have hns : ¬ selectLit <+: queryLowerOf q :=
      fun hs => h (selectPre_trim_of_queryLower hs)
    exact ⟨onlySelectMsg, by simp only [guardCheck, if_pos hns]⟩
  · intro tok htok hinf
    obtain ⟨hne, hgood⟩ := forbiddenOps_good tok htok
    have hql := infix_lower_to_queryLower hne hgood hinf
    by_cases hsel : selectLit <+: queryLowerOf q
    · have hany : forbiddenOps.any (fun op => decide (op <:+: queryLowerOf q)) = true :=
        List.any_eq_true.mpr ⟨tok, htok, decide_eq_true hql⟩
      exact ⟨forbiddenMsgPre ++ cleanedQueryOf q,
        by simp only [guardCheck, if_neg (not_not_intro hsel), hany, if_true]⟩
    · exact ⟨onlySelectMsg, by simp only [guardCheck, if_pos hsel]⟩
  · intro hsel hno
    have hselq := selectPre_queryLower_of_trim hsel
    have hany : forbiddenOps.any (fun op => decide (op <:+: queryLowerOf q)) = false := by
      rw [List.any_eq_false]
      intro op hop
      have hni : ¬ op <:+: queryLowerOf q :=
        fun hc => (hno op hop) (infix_queryLower_to_lower hc)
      simpa using hni
    simp only [guardCheck, if_neg (not_not_intro hselq), hany, Bool.false_eq_true, if_false]

/-- Witness for C1 at concrete inputs: a non-select string is rejected, a
select query containing "drop" is rejected, a clean select query is
accepted. -/
theorem C1_query_guard_witness :
    (∃ e, guardCheck ("see you".toList) = some e) ∧
    (∃ e, guardCheck ("select 1; drop table unicorns".toList) = some e) ∧
    guardCheck ("select * from unicorns".toList) = none :=
  ⟨(C1_query_guard ("see you".toList)).1 (by decide),
   (C1_query_guard ("select 1; drop table unicorns".toList)).2.1
     ("drop".toList) (by decide) (by decide),
   (C1_query_guard ("select * from unicorns".toList)).2.2 (by decide) (by decide)⟩

/-- C2 (code evaluation): on the spec's scenario question, the quota
fallback of `generateQuery` returns the default query, not the GROUP BY
industry query the spec expects: the `keywords.includes('how many')` test
can never hold, because `split(' ')` never yields a word containing a
space. -/
theorem C2_fallback_default :
    generateQueryFallback c2Question = defaultFallbackSQL ∧
    generateQueryFallback c2Question ≠ groupByIndustrySQL ∧
    ∀ s : Str, howManyLit ∉ splitSpace s := by
  refine ⟨by decide, by decide, ?_⟩
  intro s hmem
  exact splitSpace_no_space s howManyLit hmem (by decide)

/-- C8: under quota-error conditions the fallback of `generateQuery` is a
deterministic function of the question text: identical question strings
yield identical fallback SQL strings. -/
theorem C8_fallback_deterministic (s t : Str) (h : s = t) :
    generateQueryFallback s = generateQueryFallback t := by rw [h]

/-- Witness for C8 at the scenario question. -/
theorem C8_fallback_deterministic_witness :
    generateQueryFallback c2Question = generateQueryFallback c2Question :=
  C8_fallback_deterministic c2Question c2Question rfl

/-- C5: on quota errors `generateChartConfig` falls back deterministically:
for empty rows it returns exactly the fixed default config; for non-empty
rows, `xKey` is the first column of the first row, `yKeys` the remaining
columns in order, and `yKeys[i]` gets the `(i+1)`-th palette token. -/
theorem C5_chart_fallback :
    (chartFallbackConfig [] =
      { chartType := barLit, xKey := some companyLit, yKeys := [valuationLit],
        colors := [(valuationLit, colorToken 1)], legend := true }) ∧
    ∀ (r : Row) (rs : List Row),
      (chartFallbackConfig (r :: rs)).xKey = (r.map Prod.fst).head? ∧
      (chartFallbackConfig (r :: rs)).yKeys = (r.map Prod.fst).tail ∧
      ∀ i, i < (chartFallbackConfig (r :: rs)).yKeys.length →
        ∃ k, (chartFallbackConfig (r :: rs)).yKeys[i]? = some k ∧
          (chartFallbackConfig (r :: rs)).colors[i]? = some (k, colorToken (i + 1)) := by
  refine ⟨by decide, ?_⟩
  intro r rs
  refine ⟨rfl, rfl, ?_⟩
  intro i hi
  dsimp only [chartFallbackConfig] at hi ⊢
  refine ⟨((r.map Prod.fst).tail).get ⟨i, hi⟩, ?_, ?_⟩
  · rw [List.getElem?_eq_getElem hi]
    rfl
  · rw [List.getElem?_map, List.getElem?_enum, List.getElem?_eq_getElem hi]
    rfl

/-- Witness for C5 at a concrete two-column row. -/
theorem C5_chart_fallback_witness :
    ∃ k,
      (chartFallbackConfig
        [[(companyLit, ("A").toList), (valuationLit, ("10").toList)]]).yKeys[0]? = some k ∧
      (chartFallbackConfig
        [[(companyLit, ("A").toList), (valuationLit, ("10").toList)]]).colors[0]? =
        some (k, colorToken (0 + 1)) :=
  (C5_chart_fallback.2 [(companyLit, ("A").toList), (valuationLit, ("10").toList)] []).2.2
    0 (by decide)

/-- C9: for single-column rows the chart fallback returns empty `yKeys` and
an empty color mapping, violating the data model's non-empty `yKeys`
requirement; for rows with at least two columns the color mapping's domain
is exactly `yKeys`, which is non-empty. -/
theorem C9_single_column_chart :
    (∀ (p : Str × Str) (rs : List Row),
      (chartFallbackConfig ([p] :: rs)).yKeys = [] ∧
      (chartFallbackConfig ([p] :: rs)).colors = []) ∧
    (∀ (r : Row) (rs : List Row), 2 ≤ r.length →
      (chartFallbackConfig (r :: rs)).colors.map Prod.fst =
        (chartFallbackConfig (r :: rs)).yKeys ∧
      (chartFallbackConfig (r :: rs)).yKeys ≠ []) := by
  constructor
  · intro p rs
    exact ⟨rfl, rfl⟩
  · intro r rs h2
    constructor
    · show (((r.map Prod.fst).tail).enum.map
          (fun p => (p.2, colorToken (p.1 + 1)))).map Prod.fst = (r.map Prod.fst).tail
      rw [List.map_map]
      exact List.enum_map_snd _
    · intro hnil
      have hlen := congrArg List.length hnil
      dsimp only [chartFallbackConfig] at hlen
      rw [List.length_tail, List.length_map] at hlen
      simp only [List.length_nil] at hlen
      omega

/-- Witness for C9 at a concrete one-column row. -/
theorem C9_single_column_chart_witness :
    (chartFallbackConfig [[(companyLit, ("A").toList)]]).yKeys = [] ∧
    (chartFallbackConfig [[(companyLit, ("A").toList)]]).colors = [] :=
  C9_single_column_chart.1 (companyLit, ("A").toList) []

/-! ## Reductions of the executor model -/

theorem runModel_main_result (st : Store) (q : Str) (hg : guardCheck q = none)
    (hpre : regexpSplitLit <:+: queryLowerOf q → st.commaRows ≠ 0) :
    runGenerateSQLQueryModel st q =
      ((tryMainBlock st q).1.mapError catchMap,
       (if regexpSplitLit <:+: queryLowerOf q then [testQuerySQL] else []) ++
         (tryMainBlock st q).2) := by
  simp only [runGenerateSQLQueryModel, hg]
  by_cases hr : regexpSplitLit <:+: queryLowerOf q
  · have hc : (st.commaRows == 0) = false := by simpa using hpre hr
    simp [hr, hc, withCatch]
  · simp [hr, withCatch]

theorem tryMainBlock_trace (st : Store) (q : Str) (hte : st.tableExists = true)
    (hrc : st.rowCount ≠ 0) :
    (tryMainBlock st q).2 = [tableCheckSQL, countSQL, countSQL, q] := by
  have hb : (st.rowCount == 0) = false := by simpa using hrc
  simp only [tryMainBlock, hte, hb, Bool.true_eq_false, Bool.false_eq_true, if_false]
  cases hev : st.execQuery q with
  | error m => rfl
  | ok rows =>
    dsimp only
    split
    · rfl
    · split <;> rfl

theorem tryMainBlock_trace_mem (st : Store) (q : Str) :
    ∀ s ∈ (tryMainBlock st q).2, s = tableCheckSQL ∨ s = countSQL ∨ s = q := by
  have htr : (tryMainBlock st q).2 = [tableCheckSQL] ∨
      (tryMainBlock st q).2 = [tableCheckSQL, countSQL] ∨
      (tryMainBlock st q).2 = [tableCheckSQL, countSQL, countSQL] ∨
      (tryMainBlock st q).2 = [tableCheckSQL, countSQL, countSQL, q] := by
    unfold tryMainBlock
    split
    · exact Or.inl rfl
    · split
      · exact Or.inr (Or.inl rfl)
      · split <;> try split <;> try split <;> try split
        all_goals first
          | exact Or.inr (Or.inr (Or.inl rfl))
          | exact Or.inr (Or.inr (Or.inr rfl))
  intro s hs
  rcases htr with h | h | h | h <;> rw [h] at hs <;> simp only [List.mem_cons,
    List.mem_singleton, List.not_mem_nil, or_false] at hs <;> tauto

/-- C3 (amended): with the guard passed and no regexp pre-check involved,
a missing table fails with the normalized table-missing message after one
round-trip; an existing but empty table fails after the existence and count
round-trips with the table-empty message wrapped by the generic catch as
"Database error: Table exists but contains no data"; a non-empty table
reaches the main query last, after existence and count. -/
theorem C3_preconditions (st : Store) (q : Str) (hg : guardCheck q = none)
    (hnr : ¬ regexpSplitLit <:+: queryLowerOf q) :
    (st.tableExists = false →
      runGenerateSQLQueryModel st q = (Except.error tableMissingMsg, [tableCheckSQL])) ∧
    (st.tableExists = true → st.rowCount = 0 →
      runGenerateSQLQueryModel st q =
        (Except.error (dbErrorPre ++ tableEmptyMsg), [tableCheckSQL, countSQL])) ∧
    (st.tableExists = true → st.rowCount ≠ 0 →
      (runGenerateSQLQueryModel st q).2 = [tableCheckSQL, countSQL, countSQL, q]) := by
  have hrun := runModel_main_result st q hg (fun hr => absurd hr hnr)
  rw [hrun]
  simp only [if_neg hnr, List.nil_append]
  refine ⟨?_, ?_, ?_⟩
  · intro hte
    have h1 : tryMainBlock st q = (Except.error tableMissingThrownMsg, [tableCheckSQL]) := by
      simp [tryMainBlock, hte]
    rw [h1]
    have h2 : catchMap tableMissingThrownMsg = tableMissingMsg := by decide
    simp [Except.mapError, h2]
  · intro hte hrc
    have h1 : tryMainBlock st q = (Except.error tableEmptyMsg, [tableCheckSQL, countSQL]) := by
      simp [tryMainBlock, hte, hrc]
    rw [h1]
    have h2 : catchMap tableEmptyMsg = dbErrorPre ++ tableEmptyMsg := by decide
    simp [Except.mapError, h2]
  · intro hte hrc
    exact tryMainBlock_trace st q hte hrc

/-- Witness for C3 at a concrete store with an existing, empty table. -/
theorem C3_preconditions_witness :
    runGenerateSQLQueryModel
      { tableExists := true, rowCount := 0, commaRows := 0,
        execQuery := fun _ => Except.ok [] }
      ("select * from unicorns".toList) =
      (Except.error (dbErrorPre ++ tableEmptyMsg), [tableCheckSQL, countSQL]) :=
  (C3_preconditions
    { tableExists := true, rowCount := 0, commaRows := 0,
      execQuery := fun _ => Except.ok [] }
    ("select * from unicorns".toList) (by decide) (by decide)).2.1 rfl rfl

/-- Counterexample for C3 as stated: on an existing table with zero rows the
caller does not receive the bare table-empty message; the delivered message
is the wrapped one. -/
theorem C3_tableEmpty_not_bare :
    (runGenerateSQLQueryModel
      { tableExists := true, rowCount := 0, commaRows := 0,
        execQuery := fun _ => Except.ok [] }
      ("select * from unicorns".toList)).1 ≠ Except.error tableEmptyMsg := by decide

/-- C4 (code evaluation): when the store executes the query successfully
with an empty result set on a non-empty table, the caller receives the
no-matching-records message wrapped as "Database error: ...", because the
catch block's re-mapping branch compares against a message that is never
thrown; the run never returns an empty success. -/
theorem C4_no_matching_wrapped :
    (runGenerateSQLQueryModel
      { tableExists := true, rowCount := 500, commaRows := 0,
        execQuery := fun _ => Except.ok [] }
      ("select * from unicorns where company = 'Nonexistent'".toList)).1 =
      Except.error (dbErrorPre ++ noMatchingMsg) ∧
    catchMap noMatchingMsg = dbErrorPre ++ noMatchingMsg ∧
    noMatchingMsg ≠ deadNoResultsMsg ∧
    dbErrorPre <+: dbErrorPre ++ noMatchingMsg := by decide

/-- C6: the guard never rewrites the executed text: every SQL text the model
sends to the store is one of the three fixed precondition texts or the input
candidate string itself, byte-identical; when the preconditions pass, the
main statement executed is exactly the input string (not its trimmed or
semicolon-stripped copy). -/
theorem C6_guard_never_rewrites (st : Store) (q : Str) (hg : guardCheck q = none) :
    (∀ s ∈ (runGenerateSQLQueryModel st q).2,
      s = tableCheckSQL ∨ s = countSQL ∨ s = testQuerySQL ∨ s = q) ∧
    (st.tableExists = true → st.rowCount ≠ 0 → ¬ regexpSplitLit <:+: queryLowerOf q →
      (runGenerateSQLQueryModel st q).2 = [tableCheckSQL, countSQL, countSQL, q]) := by
  constructor
  · intro s hs
    simp only [runGenerateSQLQueryModel, hg] at hs
    by_cases hr : regexpSplitLit <:+: queryLowerOf q
    · rw [if_pos hr] at hs
      by_cases hcm : (st.commaRows == 0) = true
      · rw [if_pos hcm] at hs
        simp only [List.mem_singleton] at hs
        exact Or.inr (Or.inr (Or.inl hs))
      · rw [if_neg hcm] at hs
        simp only [withCatch, List.singleton_append, List.mem_cons] at hs
        rcases hs with rfl | hmem
        · exact Or.inr (Or.inr (Or.inl rfl))
        · rcases tryMainBlock_trace_mem st q s hmem with h | h | h
          · exact Or.inl h
          · exact Or.inr (Or.inl h)
          · exact Or.inr (Or.inr (Or.inr h))
    · rw [if_neg hr] at hs
      simp only [withCatch, List.nil_append] at hs
      rcases tryMainBlock_trace_mem st q s hs with h | h | h
      · exact Or.inl h
      · exact Or.inr (Or.inl h)
      · exact Or.inr (Or.inr (Or.inr h))
  · intro hte hrc hnr
    have hrun := runModel_main_result st q hg (fun hr => absurd hr hnr)
    rw [hrun]
    simp only [if_neg hnr, List.nil_append]
    exact tryMainBlock_trace st q hte hrc

/-- Witness for C6 at a concrete store and query. -/
theorem C6_guard_never_rewrites_witness :
    (runGenerateSQLQueryModel
      { tableExists := true, rowCount := 3, commaRows := 0,
        execQuery := fun _ => Except.ok [[(companyLit, ("A").toList)]] }
      ("select * from unicorns".toList)).2 =
      [tableCheckSQL, countSQL, countSQL, "select * from unicorns".toList] :=
  (C6_guard_never_rewrites
    { tableExists := true, rowCount := 3, commaRows := 0,
      execQuery := fun _ => Except.ok [[(companyLit, ("A").toList)]] }
    ("select * from unicorns".toList) (by decide)).2 rfl (by decide) (by decide)

/-- C7: a validated query whose lowercased text mentions "csv" or "export"
and whose execution yields a non-empty result set returns the comma-joined
serialization of the rows (rows joined by newlines, values by commas, no
header and no quoting) instead of the structured rows. -/
theorem C7_csv_output (st : Store) (q : Str) (rows : List Row)
    (hg : guardCheck q = none)
    (hpre : regexpSplitLit <:+: queryLowerOf q → st.commaRows ≠ 0)
    (hte : st.tableExists = true) (hrc : st.rowCount ≠ 0)
    (hev : st.execQuery q = Except.ok rows) (hne : rows ≠ [])
    (hcsv : csvLit <:+: lowerStr q ∨ exportLit <:+: lowerStr q) :
    (runGenerateSQLQueryModel st q).1 =
      Except.ok (QueryOutput.csv (List.intercalate newlineLit
        (rows.map fun row => List.intercalate commaLit (row.map Prod.snd)))) := by
  have hcsv' : (csvLit <:+: queryLowerOf q) ∨ (exportLit <:+: queryLowerOf q) := by
    rcases hcsv with h | h
    · exact Or.inl (infix_lower_to_queryLower (by decide) (by decide) h)
    · exact Or.inr (infix_lower_to_queryLower (by decide) (by decide) h)
  have hb : (st.rowCount == 0) = false := by simpa using hrc
  have hlen : (rows.length == 0) = false := by
    have : rows.length ≠ 0 := fun h0 => hne (List.length_eq_zero.mp h0)
    simpa using this
  have hmain : (tryMainBlock st q).1 =
      Except.ok (QueryOutput.csv (List.intercalate newlineLit
        (rows.map fun row => List.intercalate commaLit (row.map Prod.snd)))) := by
    simp [tryMainBlock, hte, hb, hev, hlen, hcsv']
  have hrun := runModel_main_result st q hg hpre
  rw [hrun]
  dsimp only
  rw [hmain]
  rfl

/-- Witness for C7 at a concrete store with two result rows. -/
theorem C7_csv_output_witness :
    (runGenerateSQLQueryModel
      { tableExists := true, rowCount := 3, commaRows := 0,
        execQuery := fun _ => Except.ok
          [[(companyLit, ("A").toList), (valuationLit, ("10").toList)],
           [(companyLit, ("B").toList), (valuationLit, ("20").toList)]] }
      ("select company, valuation from unicorns export".toList)).1 =
      Except.ok (QueryOutput.csv ("A,10\nB,20").toList) :=
  C7_csv_output
    { tableExists := true, rowCount := 3, commaRows := 0,
      execQuery := fun _ => Except.ok
        [[(companyLit, ("A").toList), (valuationLit, ("10").toList)],
         [(companyLit, ("B").toList), (valuationLit, ("20").toList)]] }
    ("select company, valuation from unicorns export".toList)
    [[(companyLit, ("A").toList), (valuationLit, ("10").toList)],
     [(companyLit, ("B").toList), (valuationLit, ("20").toList)]]
    (by decide) (by decide) rfl (by decide) rfl (by decide) (by decide)

/-- C10: a validated query whose lowercased text contains
"regexp_split_part" triggers an extra pre-check round-trip; when the store
has no comma-containing select_investors row, the run fails with the
unwrapped pre-check message after that single extra round-trip, and the main
query is never sent to the store. -/
theorem C10_regexp_precheck (st : Store) (q : Str) (hg : guardCheck q = none)
    (hr : regexpSplitLit <:+: lowerStr q) (hcm : st.commaRows = 0) :
    runGenerateSQLQueryModel st q = (Except.error noCommaMsg, [testQuerySQL]) ∧
    q ∉ (runGenerateSQLQueryModel st q).2 := by
  have hrq : regexpSplitLit <:+: queryLowerOf q :=
    infix_lower_to_queryLower (by decide) (by decide) hr
  have hmain : runGenerateSQLQueryModel st q = (Except.error noCommaMsg, [testQuerySQL]) := by
    simp only [runGenerateSQLQueryModel, hg, if_pos hrq, hcm]
    rfl
  refine ⟨hmain, ?_⟩
  rw [hmain]
  intro hmem
  have hq := List.mem_singleton.mp hmem
  subst hq
  exact absurd hr (by decide)

/-- Witness for C10 at a concrete store and regexp query. -/
theorem C10_regexp_precheck_witness :
    runGenerateSQLQueryModel
      { tableExists := true, rowCount := 3, commaRows := 0,
        execQuery := fun _ => Except.ok [] }
      ("select regexp_split_part(select_investors, ',', 1) from unicorns".toList) =
      (Except.error noCommaMsg, [testQuerySQL]) :=
  (C10_regexp_precheck
    { tableExists := true, rowCount := 3, commaRows := 0,
      execQuery := fun _ => Except.ok [] }
    ("select regexp_split_part(select_investors, ',', 1) from unicorns".toList)
    (by decide) (by decide) rfl).1
